import Mathlib

/-!
Shallow embedding of `main.py` of the codelab-cr-fastapi-firestore-gcs
application: a FastAPI service with a GET `/` listing route, a POST
`/upload` route, and two helpers `upload_to_gcs` and
`save_metadata_to_firestore`.

External collaborators (the GCS blob store and the Firestore document
store) are modelled as explicit state threaded through the handlers,
and their possible failures as explicit `Option String` fault
parameters (`some e` means the underlying client call raises the
exception `e`).  Every call that reaches a backend client is recorded
in a trace of `BackendCall`s, so that "zero backend calls" properties
are statable.
-/

namespace Codelab

/-- An uploaded file as the handler sees it: the client-supplied
filename, the declared content type, the byte content, and the current
read position of the underlying content stream (`uploadedFile.file`).
Bytes are modelled as `Nat`. -/
structure UploadFile where
  filename : String
  content_type : String
  content : List Nat
  pos : Nat
  deriving Repr, DecidableEq

/-- A UTC wall-clock instant at whole-second precision, the part of
`datetime.datetime.now(datetime.timezone.utc)` that
`strftime("%Y%m%d%H%M%S")` consumes. -/
structure DateTime where
  year : Nat
  month : Nat
  day : Nat
  hour : Nat
  minute : Nat
  second : Nat
  deriving Repr, DecidableEq

/-- Zero-pad a number to two digits, as `strftime` does for
`%m %d %H %M %S`. -/
def pad2 (n : Nat) : String :=
  if n < 10 then "0" ++ toString n else toString n

/-- Zero-pad a number to four digits, as `strftime` does for `%Y`. -/
def pad4 (n : Nat) : String :=
  if n < 10 then "000" ++ toString n
  else if n < 100 then "00" ++ toString n
  else if n < 1000 then "0" ++ toString n
  else toString n

/-- `strftime("%Y%m%d%H%M%S")` on a UTC datetime. -/
def strftimeYmdHMS (t : DateTime) : String :=
  pad4 t.year ++ pad2 t.month ++ pad2 t.day ++
    pad2 t.hour ++ pad2 t.minute ++ pad2 t.second

/-- One object stored in the GCS bucket: bucket, blob name (key), the
bytes written, and the content type they were written under. -/
structure Blob where
  bucket : String
  name : String
  data : List Nat
  contentType : String
  deriving Repr, DecidableEq

/-- The blob store: the list of objects written so far, in write order. -/
abbrev BlobStore := List Blob

/-- The value stored in the `uploaded_at` field.  The code always
writes the sentinel `firestore.SERVER_TIMESTAMP`, which the store
resolves to its own commit-time clock; the calling process's clock is
never written. -/
inductive TimestampValue where
  | serverTimestamp : TimestampValue
  deriving Repr, DecidableEq

/-- One Firestore document as written by `save_metadata_to_firestore`:
an auto-generated identifier plus exactly the three attributes
`filename`, `gcs_url` and `uploaded_at`. -/
structure FirestoreDoc where
  id : Nat
  filename : String
  gcs_url : String
  uploaded_at : TimestampValue
  deriving Repr, DecidableEq

/-- The metadata store: a counter producing auto-generated document
identifiers, and the rows written so far, each tagged with the
collection it was inserted into, in insertion order. -/
structure MetaStore where
  nextId : Nat
  rows : List (String × FirestoreDoc)
  deriving Repr, DecidableEq

/-- The combined external state the handlers act on. -/
structure World where
  blobs : BlobStore
  meta : MetaStore
  deriving Repr, DecidableEq

/-- A call that reaches a backend client (counted whether or not the
call succeeds). -/
inductive BackendCall where
  | blobWrite (bucket : String) (name : String)
  | metaWrite (collection : String)
  | metaQuery (collection : String)
  deriving Repr, DecidableEq

/-- The process-start configuration: `os.environ.get` with the two
placeholder defaults.  An unset variable yields its placeholder. -/
structure Env where
  GCS_BUCKET_NAME : String
  FIRESTORE_COLLECTION : String
  deriving Repr, DecidableEq

/-- The bucket check of the POST handler:
`not GCS_BUCKET_NAME or GCS_BUCKET_NAME == "YOUR_BUCKET_NAME_DEFAULT"`
(an empty string is falsy in Python). -/
def bucketUnconfigured (b : String) : Bool :=
  b = "" || b = "YOUR_BUCKET_NAME_DEFAULT"

/-- A value returned by a route handler.  `jsonMessage` is a plain
dict return (FastAPI serves it with its default status 200);
`jsonMessageWithStatus` is the source's `return {...}, 500` pair, whose
second component is the status value written in the return statement;
`redirect` is a `RedirectResponse`; `template` is a
`templates.TemplateResponse` on `index.html` with its context fields
and status code. -/
inductive Response where
  | jsonMessage (message : String)
  | jsonMessageWithStatus (message : String) (status : Nat)
  | redirect (url : String) (status : Nat)
  | template (bucket_name : String) (error_message : Option String)
      (images : List FirestoreDoc) (status : Nat)
  deriving Repr, DecidableEq

/-- The status value the return statement declares: 200 for a plain
dict (FastAPI's default), otherwise the status written in the source. -/
def Response.declaredStatus : Response → Nat
  | .jsonMessage _ => 200
  | .jsonMessageWithStatus _ s => s
  | .redirect _ s => s
  | .template _ _ _ s => s

/-- Whether the response is a redirect. -/
def Response.isRedirect : Response → Bool
  | .redirect _ _ => true
  | _ => false

/-- What one route invocation produces: the returned response, the
external state afterwards, and the trace of backend calls made. -/
structure HandlerResult where
  response : Response
  world : World
  calls : List BackendCall
  deriving Repr, DecidableEq

/-- `blob.public_url` of the google-cloud-storage client: the public
retrieval URL of a blob, determined by bucket and blob name. -/
def publicUrl (bucket_name : String) (blob_name : String) : String :=
  "https://storage.googleapis.com/" ++ bucket_name ++ "/" ++ blob_name

/-- What `upload_to_gcs` produces: the public URL or the re-raised
exception, the blob store afterwards, the backend calls made, and the
file after the `seek(0)`. -/
structure GcsResult where
  result : Except String String
  blobs : BlobStore
  calls : List BackendCall
  file : UploadFile
  deriving Repr

/-- `upload_to_gcs(uploadedFile, bucket_name)`: build the blob name
`f"{timestamp}_{uploadedFile.filename}"` from
`datetime.datetime.now(datetime.timezone.utc).strftime("%Y%m%d%H%M%S")`,
reset the file pointer with `uploadedFile.file.seek(0)`, then
`blob.upload_from_file(uploadedFile.file, content_type=...)` and return
`blob.public_url`.  The surrounding `try/except` prints the error and
bare-`raise`s it, so a raising upload propagates the exception
unchanged (`blobErr = some e` injects the client failure). -/
def upload_to_gcs (uploadedFile : UploadFile) (bucket_name : String)
    (now : DateTime) (blobErr : Option String) (blobs : BlobStore) :
    GcsResult :=
  let timestamp := strftimeYmdHMS now
  let blob_name := timestamp ++ "_" ++ uploadedFile.filename
  let f : UploadFile := { uploadedFile with pos := 0 }
  match blobErr with
  | some e => ⟨Except.error e, blobs, [BackendCall.blobWrite bucket_name blob_name], f⟩
  | none =>
      ⟨Except.ok (publicUrl bucket_name blob_name),
       blobs ++ [⟨bucket_name, blob_name, f.content.drop f.pos, uploadedFile.content_type⟩],
       [BackendCall.blobWrite bucket_name blob_name], f⟩

/-- What `save_metadata_to_firestore` produces: unit or the re-raised
exception, the metadata store afterwards, and the backend calls made. -/
structure FirestoreResult where
  result : Except String Unit
  meta : MetaStore
  calls : List BackendCall
  deriving Repr

/-- `save_metadata_to_firestore(filename, gcs_url, collection_name)`:
`firestore_client.collection(collection_name).document()` creates a
document reference with an auto-generated identifier, and `doc_ref.set`
writes the dict
`{'filename': filename, 'gcs_url': gcs_url, 'uploaded_at': firestore.SERVER_TIMESTAMP}`.
The surrounding `try/except` prints the error and bare-`raise`s it
(`metaErr = some e` injects the client failure). -/
def save_metadata_to_firestore (filename : String) (gcs_url : String)
    (collection_name : String) (metaErr : Option String)
    (store : MetaStore) : FirestoreResult :=
  match metaErr with
  | some e => ⟨Except.error e, store, [BackendCall.metaWrite collection_name]⟩
  | none =>
      ⟨Except.ok (),
       { nextId := store.nextId + 1,
         rows := store.rows ++
           [(collection_name,
             ⟨store.nextId, filename, gcs_url, TimestampValue.serverTimestamp⟩)] },
       [BackendCall.metaWrite collection_name]⟩

/-- `handle_upload(request, file)`, the POST `/upload` route.
`file = none` models a falsy `file` argument (`if not file`).
Otherwise: bucket check, then `upload_to_gcs`, then
`save_metadata_to_firestore`, then `RedirectResponse(url="/", status_code=303)`;
any exception from the two helpers is caught by the outer `except`,
printed, and answered with the `index.html` template carrying
`error_message = f"Upload failed: {e}"`, an empty `images` list, and
`status_code=500`. -/
def handle_upload (env : Env) (file : Option UploadFile) (now : DateTime)
    (blobErr : Option String) (metaErr : Option String) (w : World) :
    HandlerResult :=
  match file with
  | none => ⟨Response.jsonMessage "No upload file sent", w, []⟩
  | some f =>
    if bucketUnconfigured env.GCS_BUCKET_NAME then
      ⟨Response.jsonMessageWithStatus "GCS Bucket Name not configured." 500, w, []⟩
    else
      let g := upload_to_gcs f env.GCS_BUCKET_NAME now blobErr w.blobs
      match g.result with
      | Except.error e =>
          ⟨Response.template env.GCS_BUCKET_NAME (some ("Upload failed: " ++ e)) [] 500,
           { w with blobs := g.blobs }, g.calls⟩
      | Except.ok gcs_url =>
          let m := save_metadata_to_firestore f.filename gcs_url
            env.FIRESTORE_COLLECTION metaErr w.meta
          match m.result with
          | Except.error e =>
              ⟨Response.template env.GCS_BUCKET_NAME (some ("Upload failed: " ++ e)) [] 500,
               { blobs := g.blobs, meta := m.meta }, g.calls ++ m.calls⟩
          | Except.ok _ =>
              ⟨Response.redirect "/" 303, { blobs := g.blobs, meta := m.meta },
               g.calls ++ m.calls⟩

/-- `read_root(request)`, the GET `/` route: query the configured
collection ordered by `uploaded_at` descending, `limit(10)`; on any
exception print a warning and continue with the images collected so
far (the failure is modelled at query issuance, before any document is
yielded, so the list is empty); always answer with the `index.html`
template (status 200, FastAPI's default).  Since every `uploaded_at`
is a server-assigned commit timestamp, descending order is reverse
insertion order. -/
def read_root (env : Env) (queryErr : Option String) (w : World) :
    HandlerResult :=
  let images : List FirestoreDoc :=
    match queryErr with
    | some _ => []
    | none =>
        (((w.meta.rows.filter (fun r => r.1 = env.FIRESTORE_COLLECTION)).map
          (fun r => r.2)).reverse).take 10
  ⟨Response.template env.GCS_BUCKET_NAME none images 200, w,
   [BackendCall.metaQuery env.FIRESTORE_COLLECTION]⟩

/-! Concrete instances used by the witness theorems, taken from the
spec's concrete scenario: `photo.jpg`, content type `image/jpeg`,
bytes `"abc"`, bucket `demo-bucket`, time `2024-01-02T03:04:05Z`. -/

/-- The spec's concrete upload: `photo.jpg`, `image/jpeg`, bytes `"abc"`. -/
def photoFile : UploadFile := ⟨"photo.jpg", "image/jpeg", [97, 98, 99], 0⟩

/-- The spec's concrete instant `2024-01-02T03:04:05Z`. -/
def t0 : DateTime := ⟨2024, 1, 2, 3, 4, 5⟩

/-- A second instant one second later, for the idempotence check. -/
def t1 : DateTime := ⟨2024, 1, 2, 3, 4, 6⟩

/-- An initially empty pair of stores. -/
def w0 : World := ⟨[], ⟨0, []⟩⟩

/-- A configured environment: bucket `demo-bucket`, collection `images`. -/
def demoEnv : Env := ⟨"demo-bucket", "images"⟩

/-- An environment whose bucket is the unconfigured placeholder. -/
def placeholderEnv : Env := ⟨"YOUR_BUCKET_NAME_DEFAULT", "images"⟩

/-- A configured bucket together with the placeholder collection
default, for the collection-is-never-checked claim. -/
def placeholderCollectionEnv : Env := ⟨"demo-bucket", "YOUR_FIRESTORE_DEFAULT"⟩

/-- Distinct timestamp strings give distinct storage keys
`{timestamp}_{filename}`. -/
theorem blobKey_ne_of_timestamp_ne (s1 s2 fn : String) (h : s1 ≠ s2) :
    s1 ++ "_" ++ fn ≠ s2 ++ "_" ++ fn := by
  intro hc
  apply h
  apply String.ext
  have hd : (s1 ++ "_" ++ fn).data = (s2 ++ "_" ++ fn).data :=
    congrArg String.data hc
  simp only [String.data_append] at hd
  exact List.append_cancel_right (List.append_cancel_right hd)

/-- C1: for every POST `/upload` request carrying a file, if the target
bucket is unconfigured (empty or the placeholder default), the handler
returns the error message paired with the status value 500 and makes
zero backend calls: both stores are returned unchanged and the call
trace is empty. -/
theorem C1_unconfigured_bucket_short_circuits (env : Env) (f : UploadFile)
    (now : DateTime) (blobErr metaErr : Option String) (w : World)
    (h : bucketUnconfigured env.GCS_BUCKET_NAME = true) :
    handle_upload env (some f) now blobErr metaErr w =
      ⟨Response.jsonMessageWithStatus "GCS Bucket Name not configured." 500, w, []⟩ := by
  simp [handle_upload, h]

/-- Witness for C1 at the placeholder bucket with the spec's concrete
upload. -/
theorem C1_unconfigured_bucket_short_circuits_witness :
    bucketUnconfigured placeholderEnv.GCS_BUCKET_NAME = true ∧
    handle_upload placeholderEnv (some photoFile) t0 none none w0 =
      ⟨Response.jsonMessageWithStatus "GCS Bucket Name not configured." 500, w0, []⟩ :=
  ⟨by decide, C1_unconfigured_bucket_short_circuits placeholderEnv photoFile t0
    none none w0 (by decide)⟩

/-- C2: for every POST `/upload` request with no file present, the
handler returns the acknowledgment message `"No upload file sent"` as
a plain dict — declared status 200, not a redirect — and makes no
backend call. -/
theorem C2_no_file_acknowledged (env : Env) (now : DateTime)
    (blobErr metaErr : Option String) (w : World) :
    (handle_upload env none now blobErr metaErr w).response =
      Response.jsonMessage "No upload file sent" ∧
    (handle_upload env none now blobErr metaErr w).response.declaredStatus = 200 ∧
    (handle_upload env none now blobErr metaErr w).response.isRedirect = false ∧
    (handle_upload env none now blobErr metaErr w).calls = [] :=
  ⟨rfl, rfl, rfl, rfl⟩

/-- C3: the metadata write is sequenced strictly after the blob write:
if the blob write raises, the metadata store is untouched and the only
backend call is the blob write; on success the inserted document has
the auto-generated identifier `nextId` and exactly the attributes
`filename`, `gcs_url` and `uploaded_at = serverTimestamp`, and the
call trace lists the blob write before the metadata write. -/
theorem C3_metadata_only_after_blob (env : Env) (f : UploadFile)
    (now : DateTime) (w : World)
    (h : bucketUnconfigured env.GCS_BUCKET_NAME = false) :
    (∀ e metaErr,
      (handle_upload env (some f) now (some e) metaErr w).world.meta = w.meta ∧
      (handle_upload env (some f) now (some e) metaErr w).calls =
        [BackendCall.blobWrite env.GCS_BUCKET_NAME
          (strftimeYmdHMS now ++ "_" ++ f.filename)]) ∧
    (handle_upload env (some f) now none none w).world.meta.rows =
      w.meta.rows ++
        [(env.FIRESTORE_COLLECTION,
          ⟨w.meta.nextId, f.filename,
           publicUrl env.GCS_BUCKET_NAME (strftimeYmdHMS now ++ "_" ++ f.filename),
           TimestampValue.serverTimestamp⟩)] ∧
    (handle_upload env (some f) now none none w).calls =
      [BackendCall.blobWrite env.GCS_BUCKET_NAME
        (strftimeYmdHMS now ++ "_" ++ f.filename),
       BackendCall.metaWrite env.FIRESTORE_COLLECTION] := by
  refine ⟨fun e metaErr => ⟨?_, ?_⟩, ?_, ?_⟩ <;>
    simp [handle_upload, upload_to_gcs, save_metadata_to_firestore, h]

/-- Witness for C3: blob failure leaves the metadata store empty;
success inserts the one three-attribute document with id 0. -/
theorem C3_metadata_only_after_blob_witness :
    bucketUnconfigured demoEnv.GCS_BUCKET_NAME = false ∧
    (handle_upload demoEnv (some photoFile) t0 (some "boom") none w0).world.meta
      = w0.meta ∧
    (handle_upload demoEnv (some photoFile) t0 none none w0).world.meta.rows =
      w0.meta.rows ++
        [(demoEnv.FIRESTORE_COLLECTION,
          ⟨w0.meta.nextId, photoFile.filename,
           publicUrl demoEnv.GCS_BUCKET_NAME
             (strftimeYmdHMS t0 ++ "_" ++ photoFile.filename),
           TimestampValue.serverTimestamp⟩)] :=
  ⟨by decide,
   ((C3_metadata_only_after_blob demoEnv photoFile t0 w0 (by decide)).1 "boom" none).1,
   (C3_metadata_only_after_blob demoEnv photoFile t0 w0 (by decide)).2.1⟩

/-- C4: for every GET `/` request whose metadata-store query raises,
the handler still returns the rendered template with status 200 and an
empty image list; the failure is swallowed. -/
theorem C4_read_swallows_query_failure (env : Env) (e : String) (w : World) :
    read_root env (some e) w =
      ⟨Response.template env.GCS_BUCKET_NAME none [] 200, w,
       [BackendCall.metaQuery env.FIRESTORE_COLLECTION]⟩ ∧
    (read_root env (some e) w).response.declaredStatus = 200 :=
  ⟨rfl, rfl⟩

/-- C5: the blob-store helper builds the storage key
`{YYYYMMDDHHMMSS}_{filename}`, resets the stream to position 0 before
reading (so the stored bytes are the full content whatever the incoming
position), writes under the declared content type, and returns the
public URL; at `2024-01-02T03:04:05Z` the key for `photo.jpg` is
`20240102030405_photo.jpg`. -/
theorem C5_blob_key_format (f : UploadFile) (bucket_name : String)
    (now : DateTime) (blobs : BlobStore) :
    upload_to_gcs f bucket_name now none blobs =
      ⟨Except.ok (publicUrl bucket_name (strftimeYmdHMS now ++ "_" ++ f.filename)),
       blobs ++ [⟨bucket_name, strftimeYmdHMS now ++ "_" ++ f.filename,
                  f.content, f.content_type⟩],
       [BackendCall.blobWrite bucket_name (strftimeYmdHMS now ++ "_" ++ f.filename)],
       { f with pos := 0 }⟩ ∧
    strftimeYmdHMS ⟨2024, 1, 2, 3, 4, 5⟩ ++ "_" ++ "photo.jpg" =
      "20240102030405_photo.jpg" := by
  constructor
  · simp [upload_to_gcs]
  · rfl

/-- C6: any exception raised by the blob write or by the metadata write
yields the same response: the rendered template with
`error_message = "Upload failed: " ++ e`, an empty image list and
status 500, with no metadata query in the trace; and each helper
propagates its exception unchanged. -/
theorem C6_write_failure_renders_error_page (env : Env) (f : UploadFile)
    (now : DateTime) (w : World) (e : String) (gcs_url : String)
    (h : bucketUnconfigured env.GCS_BUCKET_NAME = false) :
    (handle_upload env (some f) now (some e) none w).response =
      Response.template env.GCS_BUCKET_NAME (some ("Upload failed: " ++ e)) [] 500 ∧
    (handle_upload env (some f) now none (some e) w).response =
      Response.template env.GCS_BUCKET_NAME (some ("Upload failed: " ++ e)) [] 500 ∧
    (handle_upload env (some f) now (some e) none w).calls =
      [BackendCall.blobWrite env.GCS_BUCKET_NAME
        (strftimeYmdHMS now ++ "_" ++ f.filename)] ∧
    (handle_upload env (some f) now none (some e) w).calls =
      [BackendCall.blobWrite env.GCS_BUCKET_NAME
        (strftimeYmdHMS now ++ "_" ++ f.filename),
       BackendCall.metaWrite env.FIRESTORE_COLLECTION] ∧
    (upload_to_gcs f env.GCS_BUCKET_NAME now (some e) w.blobs).result =
      Except.error e ∧
    (save_metadata_to_firestore f.filename gcs_url env.FIRESTORE_COLLECTION
      (some e) w.meta).result = Except.error e := by
  refine ⟨?_, ?_, ?_, ?_, rfl, rfl⟩ <;>
    simp [handle_upload, upload_to_gcs, save_metadata_to_firestore, h]

/-- Witness for C6: both failure paths at the concrete upload return
the identical error template. -/
theorem C6_write_failure_renders_error_page_witness :
    bucketUnconfigured demoEnv.GCS_BUCKET_NAME = false ∧
    (handle_upload demoEnv (some photoFile) t0 (some "boom") none w0).response =
      Response.template demoEnv.GCS_BUCKET_NAME
        (some ("Upload failed: " ++ "boom")) [] 500 ∧
    (handle_upload demoEnv (some photoFile) t0 none (some "boom") w0).response =
      Response.template demoEnv.GCS_BUCKET_NAME
        (some ("Upload failed: " ++ "boom")) [] 500 :=
  ⟨by decide,
   (C6_write_failure_renders_error_page demoEnv photoFile t0 w0 "boom" "u"
     (by decide)).1,
   (C6_write_failure_renders_error_page demoEnv photoFile t0 w0 "boom" "u"
     (by decide)).2.1⟩

/-- C7: with a file present, a configured bucket and both writes
succeeding, the handler performs the blob write and then the metadata
write, in that order, and returns a 303 redirect to `/`. -/
theorem C7_success_redirects_303 (env : Env) (f : UploadFile)
    (now : DateTime) (w : World)
    (h : bucketUnconfigured env.GCS_BUCKET_NAME = false) :
    (handle_upload env (some f) now none none w).response =
      Response.redirect "/" 303 ∧
    (handle_upload env (some f) now none none w).calls =
      [BackendCall.blobWrite env.GCS_BUCKET_NAME
        (strftimeYmdHMS now ++ "_" ++ f.filename),
       BackendCall.metaWrite env.FIRESTORE_COLLECTION] := by
  constructor <;>
    simp [handle_upload, upload_to_gcs, save_metadata_to_firestore, h]

/-- Witness for C7 at the spec's concrete scenario. -/
theorem C7_success_redirects_303_witness :
    bucketUnconfigured demoEnv.GCS_BUCKET_NAME = false ∧
    (handle_upload demoEnv (some photoFile) t0 none none w0).response =
      Response.redirect "/" 303 :=
  ⟨by decide, (C7_success_redirects_303 demoEnv photoFile t0 w0 (by decide)).1⟩

/-- C8: upload is not idempotent: two successful uploads of the same
content and filename whose formatted timestamps differ produce two
distinct storage keys, append two blobs (no deduplication), and create
two distinct metadata documents with distinct auto-generated ids. -/
theorem C8_not_idempotent (env : Env) (f : UploadFile) (ta tb : DateTime)
    (w : World) (hb : bucketUnconfigured env.GCS_BUCKET_NAME = false)
    (ht : strftimeYmdHMS ta ≠ strftimeYmdHMS tb) :
    strftimeYmdHMS ta ++ "_" ++ f.filename ≠
      strftimeYmdHMS tb ++ "_" ++ f.filename ∧
    (handle_upload env (some f) tb none none
        (handle_upload env (some f) ta none none w).world).world.blobs =
      w.blobs ++
        [⟨env.GCS_BUCKET_NAME, strftimeYmdHMS ta ++ "_" ++ f.filename,
          f.content, f.content_type⟩,
         ⟨env.GCS_BUCKET_NAME, strftimeYmdHMS tb ++ "_" ++ f.filename,
          f.content, f.content_type⟩] ∧
    (handle_upload env (some f) tb none none
        (handle_upload env (some f) ta none none w).world).world.meta.rows =
      w.meta.rows ++
        [(env.FIRESTORE_COLLECTION,
          ⟨w.meta.nextId, f.filename,
           publicUrl env.GCS_BUCKET_NAME (strftimeYmdHMS ta ++ "_" ++ f.filename),
           TimestampValue.serverTimestamp⟩),
         (env.FIRESTORE_COLLECTION,
          ⟨w.meta.nextId + 1, f.filename,
           publicUrl env.GCS_BUCKET_NAME (strftimeYmdHMS tb ++ "_" ++ f.filename),
           TimestampValue.serverTimestamp⟩)] ∧
    w.meta.nextId ≠ w.meta.nextId + 1 := by
  refine ⟨blobKey_ne_of_timestamp_ne _ _ _ ht, ?_, ?_, Nat.ne_of_lt (Nat.lt_succ_self _)⟩ <;>
    simp [handle_upload, upload_to_gcs, save_metadata_to_firestore, hb]

/-- Witness for C8: uploading `photo.jpg` at 03:04:05 and 03:04:06
appends two blobs with distinct keys and two documents with ids 0
and 1. -/
theorem C8_not_idempotent_witness :
    bucketUnconfigured demoEnv.GCS_BUCKET_NAME = false ∧
    strftimeYmdHMS t0 ≠ strftimeYmdHMS t1 ∧
    strftimeYmdHMS t0 ++ "_" ++ photoFile.filename ≠
      strftimeYmdHMS t1 ++ "_" ++ photoFile.filename ∧
    (handle_upload demoEnv (some photoFile) t1 none none
        (handle_upload demoEnv (some photoFile) t0 none none w0).world).world.meta.rows =
      w0.meta.rows ++
        [(demoEnv.FIRESTORE_COLLECTION,
          ⟨w0.meta.nextId, photoFile.filename,
           publicUrl demoEnv.GCS_BUCKET_NAME
             (strftimeYmdHMS t0 ++ "_" ++ photoFile.filename),
           TimestampValue.serverTimestamp⟩),
         (demoEnv.FIRESTORE_COLLECTION,
          ⟨w0.meta.nextId + 1, photoFile.filename,
           publicUrl demoEnv.GCS_BUCKET_NAME
             (strftimeYmdHMS t1 ++ "_" ++ photoFile.filename),
           TimestampValue.serverTimestamp⟩)] :=
  ⟨by decide, by decide,
   (C8_not_idempotent demoEnv photoFile t0 t1 w0 (by decide) (by decide)).1,
   (C8_not_idempotent demoEnv photoFile t0 t1 w0 (by decide) (by decide)).2.2.1⟩

/-- C9: if the blob write succeeds and the metadata write then raises,
the blob store after the handler returns is exactly the old store plus
the newly written blob — the error path performs no compensating
delete, so the new blob is still present. -/
theorem C9_no_blob_rollback (env : Env) (f : UploadFile) (now : DateTime)
    (e : String) (w : World)
    (h : bucketUnconfigured env.GCS_BUCKET_NAME = false) :
    (handle_upload env (some f) now none (some e) w).world.blobs =
      w.blobs ++
        [⟨env.GCS_BUCKET_NAME, strftimeYmdHMS now ++ "_" ++ f.filename,
          f.content, f.content_type⟩] ∧
    (Blob.mk env.GCS_BUCKET_NAME (strftimeYmdHMS now ++ "_" ++ f.filename)
        f.content f.content_type) ∈
      (handle_upload env (some f) now none (some e) w).world.blobs := by
  constructor <;>
    simp [handle_upload, upload_to_gcs, save_metadata_to_firestore, h]

/-- Witness for C9: the blob written at the concrete upload survives
the metadata failure. -/
theorem C9_no_blob_rollback_witness :
    bucketUnconfigured demoEnv.GCS_BUCKET_NAME = false ∧
    (Blob.mk demoEnv.GCS_BUCKET_NAME
        (strftimeYmdHMS t0 ++ "_" ++ photoFile.filename)
        photoFile.content photoFile.content_type) ∈
      (handle_upload demoEnv (some photoFile) t0 none (some "boom") w0).world.blobs :=
  ⟨by decide, (C9_no_blob_rollback demoEnv photoFile t0 "boom" w0 (by decide)).2⟩

/-- C10: the collection name is never checked: for every environment
with a configured bucket — including one whose collection is empty or
the placeholder `YOUR_FIRESTORE_DEFAULT` — and any metadata-write
outcome, the handler attempts both the blob write and the metadata
write against that collection. -/
theorem C10_collection_never_checked (env : Env) (f : UploadFile)
    (now : DateTime) (metaErr : Option String) (w : World)
    (h : bucketUnconfigured env.GCS_BUCKET_NAME = false) :
    (handle_upload env (some f) now none metaErr w).calls =
      [BackendCall.blobWrite env.GCS_BUCKET_NAME
        (strftimeYmdHMS now ++ "_" ++ f.filename),
       BackendCall.metaWrite env.FIRESTORE_COLLECTION] := by
  cases metaErr <;>
    simp [handle_upload, upload_to_gcs, save_metadata_to_firestore, h]

/-- Witness for C10 at the placeholder collection: both writes are
still attempted. -/
theorem C10_collection_never_checked_witness :
    bucketUnconfigured placeholderCollectionEnv.GCS_BUCKET_NAME = false ∧
    (handle_upload placeholderCollectionEnv (some photoFile) t0 none none w0).calls =
      [BackendCall.blobWrite placeholderCollectionEnv.GCS_BUCKET_NAME
        (strftimeYmdHMS t0 ++ "_" ++ photoFile.filename),
       BackendCall.metaWrite placeholderCollectionEnv.FIRESTORE_COLLECTION] :=
  ⟨by decide,
   C10_collection_never_checked placeholderCollectionEnv photoFile t0 none w0
     (by decide)⟩

end Codelab
